import Mathlib

set_option maxRecDepth 100000

/-!
Verification of the admin-prometheus-generate command
(src/cmd/admin-prometheus-generate.go) against its natural-language
specification.

The Go source is shallowly embedded. The document types, the two template
constants, the renderers and the control flow of generatePrometheusConfig
and mainAdminPrometheusGenerate are translated directly from the source.
External collaborators (alias store, URL parser, admin client, the jwt
library, console colorization, fatalIf) appear either as oracle inputs of
the modelled command or as definitions whose doc comment starts with
"Modelled from the spec:".
-/

/-! ## Constants (src lines 35-39) -/

def defaultJobName : String := "minio-job"

def legacyMetricsPath : String := "/minio/prometheus/metrics"

def defaultMetricsPath : String := "/minio/v2/metrics/cluster"

/-! ## Document data model (src lines 65-68, 86-89, 107-114) -/

/-- StatConfig - container to hold the targets config (src lines 86-89). -/
structure StatConfig where
  Targets : List String
deriving DecidableEq, Repr

/-- ScrapeConfig configures a scraping unit for Prometheus (src lines
107-114).  Field order matches the Go struct declaration, which fixes the
JSON field order. -/
structure ScrapeConfig where
  JobName : String
  BearerToken : String
  MetricsPath : String
  Scheme : String
  StaticConfigs : List StatConfig
deriving DecidableEq, Repr

/-- PrometheusConfig - container to hold the top level scrape config
(src lines 65-68). -/
structure PrometheusConfig where
  ScrapeConfigs : List ScrapeConfig
deriving DecidableEq, Repr

/-! ## JSON marshalling

Translation of Go encoding/json MarshalIndent (as wrapped by
minio/colorjson; the plain, uncolorized byte output) for the concrete
types this file marshals: strings, a string slice, and the ScrapeConfig /
StatConfig structs with the json struct tags of src lines 88 and 109-113.
MarshalIndent is called with prefix "" and indent " " (one space), so one
extra space of indentation per nesting level.  encoding/json escapes HTML
characters by default. -/

def hexDigitChar (n : Nat) : Char :=
  if n < 10 then Char.ofNat (48 + n) else Char.ofNat (87 + n)

def jsonEscapeChar (ch : Char) : String :=
  if ch = '"' then "\\\""
  else if ch = '\\' then "\\\\"
  else if ch = '\n' then "\\n"
  else if ch = '\r' then "\\r"
  else if ch = '\t' then "\\t"
  else if ch = '<' then "\\u003c"
  else if ch = '>' then "\\u003e"
  else if ch = '&' then "\\u0026"
  else if ch.toNat = 8232 then "\\u2028"
  else if ch.toNat = 8233 then "\\u2029"
  else if ch.toNat < 32 then
    "\\u00" ++ String.mk [hexDigitChar (ch.toNat / 16), hexDigitChar (ch.toNat % 16)]
  else String.singleton ch

def jsonQuote (s : String) : String :=
  "\"" ++ String.join (s.data.map jsonEscapeChar) ++ "\""

/-- MarshalIndent of a []string whose elements start at indentation
ind ++ " "; the closing bracket sits at ind. -/
def jsonStringList (ind : String) (xs : List String) : String :=
  match xs with
  | [] => "[]"
  | _ =>
    "[\n" ++ String.intercalate (",\n") (xs.map (fun x => ind ++ " " ++ jsonQuote x))
      ++ "\n" ++ ind ++ "]"

/-- MarshalIndent of a StatConfig value (a JSON object with the single
field "targets", per the json tag on src line 88). -/
def jsonStatConfig (ind : String) (t : StatConfig) : String :=
  "\x7b\n" ++ ind ++ " " ++ jsonQuote ("targets") ++ ": "
    ++ jsonStringList (ind ++ " ") t.Targets ++ "\n" ++ ind ++ "\x7d"

def jsonStatConfigList (ind : String) (xs : List StatConfig) : String :=
  match xs with
  | [] => "[]"
  | _ =>
    "[\n"
      ++ String.intercalate (",\n")
        (xs.map (fun t => ind ++ " " ++ jsonStatConfig (ind ++ " ") t))
      ++ "\n" ++ ind ++ "]"

/-- MarshalIndent of a ScrapeConfig value, JSON field names and order per
the struct tags on src lines 109-113. -/
def jsonScrapeConfig (ind : String) (sc : ScrapeConfig) : String :=
  "\x7b\n"
    ++ ind ++ " " ++ jsonQuote ("jobName") ++ ": " ++ jsonQuote sc.JobName ++ ",\n"
    ++ ind ++ " " ++ jsonQuote ("bearerToken") ++ ": " ++ jsonQuote sc.BearerToken ++ ",\n"
    ++ ind ++ " " ++ jsonQuote ("metricsPath") ++ ": " ++ jsonQuote sc.MetricsPath ++ ",\n"
    ++ ind ++ " " ++ jsonQuote ("scheme") ++ ": " ++ jsonQuote sc.Scheme ++ ",\n"
    ++ ind ++ " " ++ jsonQuote ("staticConfigs") ++ ": "
    ++ jsonStatConfigList (ind ++ " ") sc.StaticConfigs
    ++ "\n" ++ ind ++ "\x7d"

/-- src lines 79-84: PrometheusConfig.JSON marshals c.ScrapeConfigs[0]
with MarshalIndent(-, "", " ").  The index expression carries no bounds
guard: on an empty ScrapeConfigs slice the Go code raises an index
out-of-range runtime fault, modelled here by none.  The fatalIf on a
marshalling error can never fire because marshalling cannot fail on this
type. -/
def PrometheusConfig.JSON (c : PrometheusConfig) : Option String :=
  match c.ScrapeConfigs with
  | [] => none
  | sc :: _ => some (jsonScrapeConfig ("") sc)

/-- src lines 100-105: StatConfig.JSON marshals t.Targets with
MarshalIndent(-, "", " "). -/
def StatConfig.JSON (t : StatConfig) : String :=
  jsonStringList ("") t.Targets

/-! ## YAML marshalling (gopkg.in/yaml.v2)

Translation of yaml.Marshal for PrometheusConfig with the yaml struct
tags of src lines 67, 88 and 109-113: block style, two-space nesting,
flow style for the Targets list, omitempty on scrape_configs,
metrics_path, scheme and static_configs. -/

/-- yaml.v2 scalar emission, modelled for the scalar values this command
produces: a nonempty string of URL / token / path characters is emitted
in plain style, the empty string as a double-quoted empty scalar.
Quoting of scalars containing YAML indicator sequences is outside the
shapes exercised here and is not modelled. -/
def yamlScalar (s : String) : String :=
  if s = "" then "\x22\x22" else s

def yamlStatConfigLine (t : StatConfig) : String :=
  "  - targets: [" ++ String.intercalate (", ") (t.Targets.map yamlScalar) ++ "]\n"

def yamlScrapeConfigBlock (sc : ScrapeConfig) : String :=
  "- job_name: " ++ yamlScalar sc.JobName ++ "\n"
    ++ "  bearer_token: " ++ yamlScalar sc.BearerToken ++ "\n"
    ++ (if sc.MetricsPath = "" then ""
        else "  metrics_path: " ++ yamlScalar sc.MetricsPath ++ "\n")
    ++ (if sc.Scheme = "" then ""
        else "  scheme: " ++ yamlScalar sc.Scheme ++ "\n")
    ++ (if sc.StaticConfigs.isEmpty then ""
        else "  static_configs:\n" ++ String.join (sc.StaticConfigs.map yamlStatConfigLine))

def yamlMarshalPrometheus (c : PrometheusConfig) : String :=
  if c.ScrapeConfigs.isEmpty then "{}\n"
  else "scrape_configs:\n" ++ String.join (c.ScrapeConfigs.map yamlScrapeConfigBlock)

/-- Modelled from the spec: console.Colorize (minio/pkg console, not part
of this repository) wraps the text in the ANSI color configured for the
given tag when color output is enabled - mainAdminPrometheusGenerate sets
the "yaml" tag to green (src line 212) - and returns the text unchanged
when color output is disabled.  The global enabled flag is passed
explicitly. -/
def consoleColorize (colorEnabled : Bool) (s : String) : String :=
  if colorEnabled then "\x1b[32m" ++ s ++ "\x1b[0m" else s

/-- src lines 70-77, the body of PrometheusConfig.String after
yaml.Marshal has produced its result: a marshalling error is recovered
locally into a descriptive message string, a success is colorized. -/
def prometheusStringOf (colorEnabled : Bool) (r : Except String String) : String :=
  match r with
  | Except.error err => "error creating config string: " ++ err
  | Except.ok b => consoleColorize colorEnabled b

/-- src lines 70-77: String colorized prometheus config yaml.
yaml.Marshal cannot fail on PrometheusConfig, so the marshal result is
always ok; the error branch is kept in prometheusStringOf. -/
def PrometheusConfig.String (colorEnabled : Bool) (c : PrometheusConfig) : String :=
  prometheusStringOf colorEnabled (Except.ok (yamlMarshalPrometheus c))

/-! ## Credential minting (src lines 116-118, 174-183)

The jwt library (dgrijalva/jwt-go) is an external cryptographic
primitive, not part of this repository; spec section 4.1 specifies its
interface: a symmetric HMAC-SHA512-class signer keyed by the secret,
failing when the secret is empty, and a decode with the same secret
recovering the payload.  The payload construction and the validity
policy below are translated from the source. -/

/-- jwt-go StandardClaims: the three fields set at src lines 174-178.
ExpiresAt is in Unix seconds. -/
structure StandardClaims where
  ExpiresAt : Int
  Subject : String
  Issuer : String
deriving DecidableEq, Repr

def nsPerSecond : Int := 1000000000

/-- Go time.Duration counts nanoseconds; time.Hour in nanoseconds. -/
def goHour : Int := 3600 * nsPerSecond

/-- src lines 116-118: defaultPrometheusJWTExpiry = 100 * 365 * 24 * time.Hour. -/
def defaultPrometheusJWTExpiry : Int := 100 * 365 * 24 * goHour

/-- Go Time.Unix(): whole seconds since the epoch (floor).  Instants are
modelled as nanosecond counts. -/
def timeUnix (t : Int) : Int := Int.fdiv t nsPerSecond

/-- Canonical serialization of the claims payload inside the token. -/
def claimsPayload (c : StandardClaims) : String :=
  "exp=" ++ toString c.ExpiresAt ++ ";sub=" ++ c.Subject ++ ";iss=" ++ c.Issuer

/-- Modelled from the spec: the HMAC-SHA512 tag over the payload, keyed
by the secret (spec section 4.1).  The cryptographic hash itself is
external to the repository; it is modelled as a key-and-message
determined tag. -/
def hmacTag (secret payload : String) : String :=
  "HS512(" ++ toString secret.length ++ ":" ++ secret ++ "," ++ payload ++ ")"

/-- Modelled from the spec: a BearerCredential is a signed string
encoding the claims (spec section 3); modelled as the payload together
with its tag. -/
structure BearerCredential where
  payload : StandardClaims
  tag : String
deriving DecidableEq, Repr

/-- The compact token text that the source stores into the document's
bearer_token field. -/
def BearerCredential.compact (t : BearerCredential) : String :=
  claimsPayload t.payload ++ "." ++ t.tag

/-- Modelled from the spec: jwt SignedString (src line 180 calls the
external library).  Signing fails when the secret is empty (spec section
4.1) and otherwise signs the claims with the secret. -/
def signedString (c : StandardClaims) (secret : String) : Except String BearerCredential :=
  if secret = "" then Except.error ("empty signing secret")
  else Except.ok (BearerCredential.mk c (hmacTag secret (claimsPayload c)))

/-- Modelled from the spec: decoding a BearerCredential with a secret
recomputes and checks the tag, yielding the claims on success (spec
sections 4.1 and 8). -/
def decodeBearer (t : BearerCredential) (secret : String) : Option StandardClaims :=
  if t.tag = hmacTag secret (claimsPayload t.payload) then some t.payload else none

/-- src lines 174-178: the claims generatePrometheusConfig constructs -
ExpiresAt = UTCNow().Add(validity).Unix(), Subject = the account access
key, Issuer = "prometheus". -/
def jwtStandardClaims (accessKey : String) (now validity : Int) : StandardClaims :=
  StandardClaims.mk (timeUnix (now + validity)) accessKey ("prometheus")

/-! ## Template constants (src lines 120-145) -/

/-- src lines 120-132: the current template.  Fields absent from the Go
composite literal take the zero value "". -/
def defaultConfig : PrometheusConfig :=
  PrometheusConfig.mk
    [ScrapeConfig.mk defaultJobName ("") defaultMetricsPath ("") [StatConfig.mk [("")]]]

/-- src lines 133-145: the legacy template. -/
def legacyConfig : PrometheusConfig :=
  PrometheusConfig.mk
    [ScrapeConfig.mk defaultJobName ("") legacyMetricsPath ("") [StatConfig.mk [("")]]]

/-- src lines 192-194 and 200-202: the assembler.  The three assignments
cfg.ScrapeConfigs[0].BearerToken = token, cfg.ScrapeConfigs[0].Scheme =
scheme and cfg.ScrapeConfigs[0].StaticConfigs[0].Targets[0] = host,
on the net, replace those three positions and keep everything else.  The
index expressions carry no bounds guards; none models the index
out-of-range runtime fault on an empty slice. -/
def fillScrapeTarget (c : PrometheusConfig) (token scheme host : String) :
    Option PrometheusConfig :=
  match c with
  | PrometheusConfig.mk [] => none
  | PrometheusConfig.mk (sc :: scRest) =>
    match sc.StaticConfigs with
    | [] => none
    | st :: stRest =>
      match st.Targets with
      | [] => none
      | _ :: tRest =>
        some (PrometheusConfig.mk
          (ScrapeConfig.mk sc.JobName token sc.MetricsPath scheme
            (StatConfig.mk (host :: tRest) :: stRest) :: scRest))

/-- The legacy template after the assembler has filled in token, scheme
and host. -/
def filledLegacy (token scheme host : String) : PrometheusConfig :=
  PrometheusConfig.mk
    [ScrapeConfig.mk defaultJobName token legacyMetricsPath scheme [StatConfig.mk [host]]]

/-- The current template after the assembler has filled in token, scheme
and host. -/
def filledCurrent (token scheme host : String) : PrometheusConfig :=
  PrometheusConfig.mk
    [ScrapeConfig.mk defaultJobName token defaultMetricsPath scheme [StatConfig.mk [host]]]

/-! ## The command (src lines 147-221) -/

/-- The connection profile returned by the alias store (URL, AccessKey,
SecretKey), read-only to this command. -/
structure HostConfig where
  URL : String
  AccessKey : String
  SecretKey : String
deriving DecidableEq, Repr

/-- The two fields of a parsed net/url URL that the command reads. -/
structure URLParts where
  Scheme : String
  Host : String
deriving DecidableEq, Repr

/-- madmin ServerProperties: the one field the command reads. -/
structure ServerProperties where
  Version : String
deriving DecidableEq, Repr

/-- Oracle inputs of one invocation: what the external collaborators
return, in the order generatePrometheusConfig consults them.  urlParse is
the result of url.Parse on the profile URL; serverInfo is the Servers
slice of the admin client's ServerInfo reply. -/
structure GenInputs where
  aliasValid : Bool
  hostConfig : Option HostConfig
  urlParse : Except String URLParts
  now : Int
  adminClientErr : Option String
  serverInfo : Except String (List ServerProperties)
deriving Repr

/-- The package-level mutable template variables (src lines 120-145):
the values of legacyConfig and defaultConfig at some point of the
process lifetime. -/
structure GenState where
  legacy : PrometheusConfig
  current : PrometheusConfig
deriving DecidableEq, Repr

/-- The template variables at process start. -/
def initialTemplates : GenState := GenState.mk legacyConfig defaultConfig

/-- How one invocation of generatePrometheusConfig ends.  fatal: fatalIf
fired, the process exits non-zero with a diagnostic and nothing printed.
errReturn: the function returns a non-nil error.  panicked: an unguarded
index was out of range.  printed: printMsg emitted the document. -/
inductive GenOutcome where
  | fatal (msg : String)
  | errReturn (msg : String)
  | panicked
  | printed (doc : PrometheusConfig)
deriving DecidableEq, Repr

/-- The version cutover constant compared on src line 191. -/
def promCutoverVersion : String := "2021-01-30T00-20-58Z"

/-- Lexicographic comparison of character lists by code point. -/
def goCharListLess : List Char → List Char → Bool
  | [], [] => false
  | [], _ :: _ => true
  | _ :: _, [] => false
  | x :: xs, y :: ys =>
    if x.toNat < y.toNat then true
    else if y.toNat < x.toNat then false
    else goCharListLess xs ys

/-- Go string comparison s1 < s2: bytewise lexicographic order, which on
valid UTF-8 coincides with code-point lexicographic order (UTF-8 is
order-preserving), hence with Lean's String order
(versionLess_iff below). -/
def versionLess (a b : String) : Bool := goCharListLess a.data b.data

/-- src lines 154-207: generatePrometheusConfig.  Go compares version
strings bytewise; for the (valid UTF-8) version tags this coincides with
Lean's String order.  The returned state is the template variables after
the call. -/
def generatePrometheusConfig (σ : GenState) (i : GenInputs) : GenState × GenOutcome :=
  match i.aliasValid with
  | false => (σ, GenOutcome.fatal ("Invalid alias."))
  | true =>
    match i.hostConfig with
    | none => (σ, GenOutcome.fatal ("No such alias found."))
    | some hc =>
      match i.urlParse with
      | Except.error e => (σ, GenOutcome.errReturn e)
      | Except.ok u =>
        match signedString (jwtStandardClaims hc.AccessKey i.now defaultPrometheusJWTExpiry)
            hc.SecretKey with
        | Except.error e => (σ, GenOutcome.errReturn e)
        | Except.ok cred =>
          match i.adminClientErr with
          | some _ => (σ, GenOutcome.fatal ("Unable to initialize admin connection."))
          | none =>
            match i.serverInfo with
            | Except.error _ => (σ, GenOutcome.fatal ("Failed to get server info."))
            | Except.ok [] => (σ, GenOutcome.panicked)
            | Except.ok (srv :: _) =>
              if versionLess srv.Version promCutoverVersion then
                match fillScrapeTarget σ.legacy (BearerCredential.compact cred)
                    u.Scheme u.Host with
                | none => (σ, GenOutcome.panicked)
                | some newLegacy =>
                  (GenState.mk newLegacy σ.current, GenOutcome.printed newLegacy)
              else
                match fillScrapeTarget σ.current (BearerCredential.compact cred)
                    u.Scheme u.Host with
                | none => (σ, GenOutcome.panicked)
                | some newCurrent =>
                  (GenState.mk σ.legacy newCurrent, GenOutcome.printed newCurrent)

/-- What the process does with the outcome: its exit status and the
documents printed.  Modelled from the spec for the parts outside src/:
fatalIf exits non-zero (spec section 6; 1 here) after printing a
diagnostic, a Go runtime fault aborts the process (2 here), and a nil
return from the cli action exits 0. -/
structure RunResult where
  exitCode : Nat
  printedDocs : List PrometheusConfig
deriving DecidableEq, Repr

def outcomeResult (o : GenOutcome) : RunResult :=
  match o with
  | GenOutcome.fatal _ => RunResult.mk 1 []
  | GenOutcome.errReturn _ => RunResult.mk 0 []
  | GenOutcome.panicked => RunResult.mk 2 []
  | GenOutcome.printed d => RunResult.mk 0 [d]

/-- src lines 210-221: mainAdminPrometheusGenerate.
checkAdminPrometheusSyntax (src lines 147-152) exits with status 1
unless exactly one argument was passed.  The error returned by
generatePrometheusConfig is checked and discarded (src lines 216-218:
both branches return nil), so an errReturn outcome still exits 0. -/
def mainAdminPrometheusGenerate (argsCount : Nat) (σ : GenState) (i : GenInputs) :
    GenState × RunResult :=
  if argsCount ≠ 1 then (σ, RunResult.mk 1 [])
  else
    match generatePrometheusConfig σ i with
    | (σ2, o) => (σ2, outcomeResult o)

/-- States of the template variables reachable over the process
lifetime: the initial constants, and anything an invocation produces. -/
inductive Reachable : GenState → Prop where
  | init : Reachable initialTemplates
  | step (σ : GenState) (i : GenInputs) : Reachable σ →
      Reachable (generatePrometheusConfig σ i).1

/-- Shape invariant of the template variables: each is its template with
some token, scheme and host filled in (initially the empty ones). -/
def TemplateInv (σ : GenState) : Prop :=
  (∃ t s h, σ.legacy = filledLegacy t s h) ∧ (∃ t s h, σ.current = filledCurrent t s h)

/-- The outcome of an invocation as a function of the inputs alone,
mirroring the branch structure of generatePrometheusConfig. -/
def genSpec (i : GenInputs) : GenOutcome :=
  match i.aliasValid with
  | false => GenOutcome.fatal ("Invalid alias.")
  | true =>
    match i.hostConfig with
    | none => GenOutcome.fatal ("No such alias found.")
    | some hc =>
      match i.urlParse with
      | Except.error e => GenOutcome.errReturn e
      | Except.ok u =>
        match signedString (jwtStandardClaims hc.AccessKey i.now defaultPrometheusJWTExpiry)
            hc.SecretKey with
        | Except.error e => GenOutcome.errReturn e
        | Except.ok cred =>
          match i.adminClientErr with
          | some _ => GenOutcome.fatal ("Unable to initialize admin connection.")
          | none =>
            match i.serverInfo with
            | Except.error _ => GenOutcome.fatal ("Failed to get server info.")
            | Except.ok [] => GenOutcome.panicked
            | Except.ok (srv :: _) =>
              if versionLess srv.Version promCutoverVersion then
                GenOutcome.printed
                  (filledLegacy (BearerCredential.compact cred) u.Scheme u.Host)
              else
                GenOutcome.printed
                  (filledCurrent (BearerCredential.compact cred) u.Scheme u.Host)

/-! ## Concrete invocation scenarios used by witnesses and evaluations -/

def c1Host : HostConfig :=
  HostConfig.mk ("https://minio.example.com:443") ("admin") ("minio123")

def c1URL : URLParts := URLParts.mk ("https") ("minio.example.com:443")

/-- An invocation whose remote reports exactly the cutover version. -/
def c1Inputs : GenInputs :=
  GenInputs.mk true (some c1Host) (Except.ok c1URL) 1700000000000000000 none
    (Except.ok [ServerProperties.mk promCutoverVersion])

def c5Host : HostConfig := HostConfig.mk ("http://play.min.io:9000") ("ACCESS") ("")

def c5URL : URLParts := URLParts.mk ("http") ("play.min.io:9000")

def c5Inputs : GenInputs :=
  GenInputs.mk true (some c5Host) (Except.ok c5URL) 1700000000000000000 none
    (Except.ok [ServerProperties.mk ("2022-03-24T00-00-00Z")])

def c9Host : HostConfig :=
  HostConfig.mk ("http://play.min.io:9000") ("Q3AM3UQ") ("zuf+tfteSlswRu7BJ86w")

def c9Inputs : GenInputs :=
  GenInputs.mk true (some c9Host) (Except.ok (URLParts.mk ("http") ("play.min.io:9000")))
    1700000000000000000 none (Except.ok [ServerProperties.mk ("2022-01-01T00-00-00Z")])

/-- A different earlier invocation (legacy branch, other host). -/
def c9Prior : GenInputs :=
  GenInputs.mk true (some (HostConfig.mk ("https://old.example.com") ("A") ("B")))
    (Except.ok (URLParts.mk ("https") ("old.example.com"))) 1600000000000000000 none
    (Except.ok [ServerProperties.mk ("2020-01-01T00-00-00Z")])

def c7Host : HostConfig := HostConfig.mk ("http://play.min.io:9000") ("ACCESS") ("SECRET")

def c7Inputs : GenInputs :=
  GenInputs.mk true (some c7Host) (Except.ok (URLParts.mk ("http") ("play.min.io:9000")))
    1700000000000000000 none (Except.ok [ServerProperties.mk ("2022-01-01T00-00-00Z")])

def c7Cred : BearerCredential :=
  BearerCredential.mk (jwtStandardClaims ("ACCESS") 1700000000000000000 defaultPrometheusJWTExpiry)
    (hmacTag ("SECRET")
      (claimsPayload (jwtStandardClaims ("ACCESS") 1700000000000000000 defaultPrometheusJWTExpiry)))

def c7Doc : PrometheusConfig :=
  filledCurrent (BearerCredential.compact c7Cred) ("http") ("play.min.io:9000")

/-- The spec's example document: a single scrape target for host
play.min.io:9000 with token T, current metrics path and scheme http. -/
def exampleDoc : PrometheusConfig :=
  PrometheusConfig.mk
    [ScrapeConfig.mk ("minio-job") ("T") ("/minio/v2/metrics/cluster") ("http")
      [StatConfig.mk [("play.min.io:9000")]]]

def c4Host : HostConfig := HostConfig.mk ("http://play.min.io:9000") ("ACCESS") ("")

/-- An invocation on which credential signing fails (empty secret, spec
section 4.1); everything else would succeed. -/
def c4Inputs : GenInputs :=
  GenInputs.mk true (some c4Host) (Except.ok (URLParts.mk ("http") ("play.min.io:9000")))
    1700000000000000000 none (Except.ok [ServerProperties.mk ("2022-01-01T00-00-00Z")])

/-! ## Order and state-machine lemmas -/

lemma goCharListLess_iff (xs : List Char) : ∀ ys : List Char,
    goCharListLess xs ys = true ↔ List.Lex (fun a b => a < b) xs ys := by
  induction xs with
  | nil =>
    intro ys
    cases ys with
    | nil =>
      refine iff_of_false (by simp [goCharListLess]) ?_
      intro h
      cases h
    | cons y ys => exact iff_of_true rfl List.Lex.nil
  | cons x xs ih =>
    intro ys
    cases ys with
    | nil =>
      refine iff_of_false (by simp [goCharListLess]) ?_
      intro h
      cases h
    | cons y ys =>
      show (if x.toNat < y.toNat then true
        else if y.toNat < x.toNat then false
        else goCharListLess xs ys) = true ↔ _
      by_cases h1 : x.toNat < y.toNat
      · exact iff_of_true (by rw [if_pos h1]) (List.Lex.rel h1)
      · by_cases h2 : y.toNat < x.toNat
        · rw [if_neg h1, if_pos h2]
          refine iff_of_false (by simp) ?_
          intro h
          cases h with
          | cons hrec => exact Nat.lt_irrefl _ h2
          | rel hxy => exact h1 hxy
        · rw [if_neg h1, if_neg h2]
          have hxy : x = y := le_antisymm (show x ≤ y from Nat.le_of_not_lt h2)
            (show y ≤ x from Nat.le_of_not_lt h1)
          subst hxy
          constructor
          · intro hrec
            exact List.Lex.cons ((ih ys).mp hrec)
          · intro h
            cases h with
            | cons hrec => exact (ih ys).mpr hrec
            | rel hxy2 => exact absurd hxy2 h1

/-- versionLess agrees with the standard lexicographic String order. -/
lemma versionLess_iff (a b : String) : versionLess a b = true ↔ a < b :=
  (goCharListLess_iff a.data b.data).trans String.lt_iff_toList_lt.symm

lemma legacyConfig_eq_filled : legacyConfig = filledLegacy ("") ("") ("") := rfl

lemma defaultConfig_eq_filled : defaultConfig = filledCurrent ("") ("") ("") := rfl

lemma fill_filledLegacy (a b c t s h : String) :
    fillScrapeTarget (filledLegacy a b c) t s h = some (filledLegacy t s h) := rfl

lemma fill_filledCurrent (a b c t s h : String) :
    fillScrapeTarget (filledCurrent a b c) t s h = some (filledCurrent t s h) := rfl

lemma templateInv_init : TemplateInv initialTemplates :=
  ⟨⟨"", "", "", rfl⟩, ⟨"", "", "", rfl⟩⟩

/-- On a state satisfying the shape invariant, the invocation's outcome
is genSpec of the inputs and the invariant is preserved. -/
lemma generate_of_inv (σ : GenState) (i : GenInputs) (h : TemplateInv σ) :
    (generatePrometheusConfig σ i).2 = genSpec i ∧
      TemplateInv (generatePrometheusConfig σ i).1 := by
  obtain ⟨⟨t1, s1, h1, e1⟩, ⟨t2, s2, h2, e2⟩⟩ := h
  obtain ⟨L, C⟩ := σ
  simp only at e1 e2
  subst e1; subst e2
  obtain ⟨av, hcO, up, now2, ce, si⟩ := i
  cases av with
  | false => exact ⟨rfl, ⟨t1, s1, h1, rfl⟩, ⟨t2, s2, h2, rfl⟩⟩
  | true =>
    cases hcO with
    | none => exact ⟨rfl, ⟨t1, s1, h1, rfl⟩, ⟨t2, s2, h2, rfl⟩⟩
    | some hc =>
      cases up with
      | error e => exact ⟨rfl, ⟨t1, s1, h1, rfl⟩, ⟨t2, s2, h2, rfl⟩⟩
      | ok u =>
        obtain ⟨url, ak, sk⟩ := hc
        by_cases hsk : sk = ""
        · subst hsk
          exact ⟨rfl, ⟨t1, s1, h1, rfl⟩, ⟨t2, s2, h2, rfl⟩⟩
        · simp only [generatePrometheusConfig, genSpec, signedString, if_neg hsk]
          cases ce with
          | some cerr => exact ⟨rfl, ⟨t1, s1, h1, rfl⟩, ⟨t2, s2, h2, rfl⟩⟩
          | none =>
            cases si with
            | error e => exact ⟨rfl, ⟨t1, s1, h1, rfl⟩, ⟨t2, s2, h2, rfl⟩⟩
            | ok servers =>
              cases servers with
              | nil => exact ⟨rfl, ⟨t1, s1, h1, rfl⟩, ⟨t2, s2, h2, rfl⟩⟩
              | cons srv rest =>
                by_cases hv : versionLess srv.Version promCutoverVersion = true
                · simp only [if_pos hv]
                  exact ⟨rfl, ⟨_, _, _, rfl⟩, ⟨t2, s2, h2, rfl⟩⟩
                · simp only [if_neg hv]
                  exact ⟨rfl, ⟨t1, s1, h1, rfl⟩, ⟨_, _, _, rfl⟩⟩

lemma templateInv_of_reachable (σ : GenState) (h : Reachable σ) : TemplateInv σ := by
  induction h with
  | init => exact templateInv_init
  | step σ2 i hr ih => exact (generate_of_inv σ2 i ih).2

lemma outcome_of_reachable (σ : GenState) (i : GenInputs) (h : Reachable σ) :
    (generatePrometheusConfig σ i).2 = genSpec i :=
  (generate_of_inv σ i (templateInv_of_reachable σ h)).1

/-! ## Claim C1 -/

/-- Claim C1: for every reported version string v, the version gate
selects the Legacy template exactly when v is lexically less than the
cutover constant "2021-01-30T00-20-58Z", and selects the Current
template otherwise; when v equals the cutover exactly, the Current
template is selected (the second iff at v = cutover, since the order is
irreflexive).  Stated on the printed document of a full invocation from
any reachable template state. -/
theorem versionGate_legacy_iff (σ : GenState) (i : GenInputs) (hc : HostConfig)
    (u : URLParts) (srv : ServerProperties) (rest : List ServerProperties)
    (hσ : Reachable σ) (hav : i.aliasValid = true) (hhc : i.hostConfig = some hc)
    (hu : i.urlParse = Except.ok u) (hsk : hc.SecretKey ≠ "")
    (hce : i.adminClientErr = none) (hsi : i.serverInfo = Except.ok (srv :: rest)) :
    ∃ sc scs, (generatePrometheusConfig σ i).2
        = GenOutcome.printed (PrometheusConfig.mk (sc :: scs))
      ∧ (sc.MetricsPath = legacyMetricsPath ↔ srv.Version < promCutoverVersion)
      ∧ (sc.MetricsPath = defaultMetricsPath ↔ ¬ srv.Version < promCutoverVersion) := by
  rw [outcome_of_reachable σ i hσ]
  by_cases hb : versionLess srv.Version promCutoverVersion = true
  · simp only [genSpec, hav, hhc, hu, hce, hsi, signedString, if_neg hsk, if_pos hb]
    exact ⟨_, [], rfl, iff_of_true rfl ((versionLess_iff _ _).mp hb),
      iff_of_false (show ¬ legacyMetricsPath = defaultMetricsPath by decide)
        (not_not_intro ((versionLess_iff _ _).mp hb))⟩
  · simp only [genSpec, hav, hhc, hu, hce, hsi, signedString, if_neg hsk, if_neg hb]
    exact ⟨_, [], rfl,
      iff_of_false (show ¬ defaultMetricsPath = legacyMetricsPath by decide)
        (fun hlt => hb ((versionLess_iff _ _).mpr hlt)),
      iff_of_true rfl (fun hlt => hb ((versionLess_iff _ _).mpr hlt))⟩

/-- Witness for C1 at the boundary: the reported version equals the
cutover exactly, and the Current metrics path is selected. -/
theorem versionGate_legacy_iff_witness :
    ∃ sc scs, (generatePrometheusConfig initialTemplates c1Inputs).2
        = GenOutcome.printed (PrometheusConfig.mk (sc :: scs))
      ∧ (sc.MetricsPath = legacyMetricsPath ↔ promCutoverVersion < promCutoverVersion)
      ∧ (sc.MetricsPath = defaultMetricsPath ↔ ¬ promCutoverVersion < promCutoverVersion) :=
  versionGate_legacy_iff initialTemplates c1Inputs c1Host c1URL
    (ServerProperties.mk promCutoverVersion) [] Reachable.init rfl rfl rfl
    (by decide) rfl rfl

/-! ## Claim C2 -/

/-- Claim C2: for every account identity, non-empty secret, issue time
and validity, the minted bearer credential decodes under the same secret
to subject = the account identity, issuer = "prometheus", and expiration
= the issue time plus the validity (in Unix seconds); and the default
validity constant is 100 years (100 * 365 days) of nanoseconds. -/
theorem mint_roundtrip (accountIdentity secret : String) (issuedAt validity : Int)
    (hs : secret ≠ "") :
    (∃ cred, signedString (jwtStandardClaims accountIdentity issuedAt validity) secret
        = Except.ok cred
      ∧ decodeBearer cred secret
        = some (StandardClaims.mk (timeUnix (issuedAt + validity)) accountIdentity
            ("prometheus")))
    ∧ defaultPrometheusJWTExpiry = 100 * 365 * 24 * 3600 * 1000000000 := by
  constructor
  · refine ⟨BearerCredential.mk (jwtStandardClaims accountIdentity issuedAt validity)
      (hmacTag secret (claimsPayload (jwtStandardClaims accountIdentity issuedAt validity))),
      ?_, ?_⟩
    · simp only [signedString, if_neg hs]
    · simp only [decodeBearer, if_pos rfl]
      rfl
  · decide

/-- Witness for C2 at a concrete account, secret, issue time and the
default validity. -/
theorem mint_roundtrip_witness :
    (∃ cred, signedString (jwtStandardClaims ("admin") 1700000000000000000
          defaultPrometheusJWTExpiry) ("minio123")
        = Except.ok cred
      ∧ decodeBearer cred ("minio123")
        = some (StandardClaims.mk
            (timeUnix (1700000000000000000 + defaultPrometheusJWTExpiry)) ("admin")
            ("prometheus")))
    ∧ defaultPrometheusJWTExpiry = 100 * 365 * 24 * 3600 * 1000000000 :=
  mint_roundtrip ("admin") ("minio123") 1700000000000000000 defaultPrometheusJWTExpiry
    (by decide)

/-! ## Claim C5 -/

/-- Claim C5: with an empty secret the credential minter fails for every
claims payload, and an invocation whose resolved profile has an empty
secret returns an error with no credential and no document printed: the
operation aborts instead of silently producing an unsigned or empty
token. -/
theorem emptySecret_mint_fails (σ : GenState) (i : GenInputs) (hc : HostConfig)
    (u : URLParts) (hav : i.aliasValid = true) (hhc : i.hostConfig = some hc)
    (hu : i.urlParse = Except.ok u) (hsk : hc.SecretKey = "") :
    (∀ c : StandardClaims, ∃ e, signedString c hc.SecretKey = Except.error e)
    ∧ (∃ e, (generatePrometheusConfig σ i).2 = GenOutcome.errReturn e)
    ∧ (∀ argsCount, (mainAdminPrometheusGenerate argsCount σ i).2.printedDocs = []) := by
  have hgen : (generatePrometheusConfig σ i).2
      = GenOutcome.errReturn ("empty signing secret") := by
    simp [generatePrometheusConfig, hav, hhc, hu, signedString, hsk]
  refine ⟨fun c => ⟨"empty signing secret", by simp [signedString, hsk]⟩,
    ⟨"empty signing secret", hgen⟩, fun argsCount => ?_⟩
  by_cases ha : argsCount = 1
  · subst ha
    simp only [mainAdminPrometheusGenerate, if_neg (by decide : ¬ (1 : Nat) ≠ 1)]
    have hpair : (generatePrometheusConfig σ i) = ((generatePrometheusConfig σ i).1,
        GenOutcome.errReturn ("empty signing secret")) := by
      rw [← hgen]
    rw [hpair]
    rfl
  · simp only [mainAdminPrometheusGenerate, if_pos ha]

/-- Witness for C5 at a concrete invocation with an empty secret key. -/
theorem emptySecret_mint_fails_witness :
    (∀ c : StandardClaims, ∃ e, signedString c c5Host.SecretKey = Except.error e)
    ∧ (∃ e, (generatePrometheusConfig initialTemplates c5Inputs).2
        = GenOutcome.errReturn e)
    ∧ (∀ argsCount,
        (mainAdminPrometheusGenerate argsCount initialTemplates c5Inputs).2.printedDocs
          = []) :=
  emptySecret_mint_fails initialTemplates c5Inputs c5Host c5URL rfl rfl rfl rfl

/-! ## Claim C6 -/

/-- Claim C6: for either template and every credential, scheme and host,
the assembled document carries the template's job name and metrics path
unchanged; only the bearer token, scheme and target host positions are
replaced (the result is pinned completely, so every other field equals
the template's). -/
theorem assemble_frame (token scheme host : String) :
    fillScrapeTarget legacyConfig token scheme host
        = some (PrometheusConfig.mk
            [ScrapeConfig.mk defaultJobName token legacyMetricsPath scheme
              [StatConfig.mk [host]]])
    ∧ fillScrapeTarget defaultConfig token scheme host
        = some (PrometheusConfig.mk
            [ScrapeConfig.mk defaultJobName token defaultMetricsPath scheme
              [StatConfig.mk [host]]]) :=
  ⟨rfl, rfl⟩

/-! ## Claim C9 -/

/-- Claim C9: the assembled (printed) document is a pure function of the
invocation's inputs: starting from any two reachable template states -
in particular before and after any earlier invocations in the same
process - identical inputs yield structurally identical outcomes. -/
theorem generate_history_independent (σ1 σ2 : GenState) (i : GenInputs)
    (h1 : Reachable σ1) (h2 : Reachable σ2) :
    (generatePrometheusConfig σ1 i).2 = (generatePrometheusConfig σ2 i).2 := by
  rw [outcome_of_reachable σ1 i h1, outcome_of_reachable σ2 i h2]

/-- Witness for C9: the same inputs yield the same outcome from the
initial state and from the state left behind by an earlier, different
invocation. -/
theorem generate_history_independent_witness :
    (generatePrometheusConfig initialTemplates c9Inputs).2
      = (generatePrometheusConfig
          (generatePrometheusConfig initialTemplates c9Prior).1 c9Inputs).2 :=
  generate_history_independent initialTemplates
    (generatePrometheusConfig initialTemplates c9Prior).1 c9Inputs Reachable.init
    (Reachable.step initialTemplates c9Prior Reachable.init)

/-! ## Claim C7 -/

/-- Claim C7: the two template constants are exactly Legacy = job
"minio-job" with path "/minio/prometheus/metrics" and Current = job
"minio-job" with path "/minio/v2/metrics/cluster", each with a single
scrape-target placeholder whose host, token and scheme are empty; and
every document an invocation prints (from any reachable template state)
has one of the two metrics paths. -/
theorem templates_fixed_and_path_closed :
    legacyConfig = PrometheusConfig.mk
        [ScrapeConfig.mk ("minio-job") ("") ("/minio/prometheus/metrics") ("")
          [StatConfig.mk [("")]]]
    ∧ defaultConfig = PrometheusConfig.mk
        [ScrapeConfig.mk ("minio-job") ("") ("/minio/v2/metrics/cluster") ("")
          [StatConfig.mk [("")]]]
    ∧ ∀ σ i d, Reachable σ → (generatePrometheusConfig σ i).2 = GenOutcome.printed d →
        ∃ sc scs, d.ScrapeConfigs = sc :: scs
          ∧ (sc.MetricsPath = legacyMetricsPath ∨ sc.MetricsPath = defaultMetricsPath) := by
  refine ⟨rfl, rfl, ?_⟩
  intro σ i d hσ hp
  rw [outcome_of_reachable σ i hσ] at hp
  unfold genSpec at hp
  repeat' split at hp
  all_goals simp at hp
  · exact hp ▸ ⟨_, _, rfl, Or.inl rfl⟩
  · exact hp ▸ ⟨_, _, rfl, Or.inr rfl⟩

/-- Witness for C7 at a concrete invocation that prints a document. -/
theorem templates_fixed_and_path_closed_witness :
    ∃ sc scs, c7Doc.ScrapeConfigs = sc :: scs
      ∧ (sc.MetricsPath = legacyMetricsPath ∨ sc.MetricsPath = defaultMetricsPath) :=
  templates_fixed_and_path_closed.2.2 initialTemplates c7Inputs c7Doc Reachable.init
    (by decide)

/-! ## Claim C3 -/

/-- Counterexample to C3 as stated: the JSON rendering of the document
is not the indented JSON of the first scrape target's static-target list
alone. -/
theorem json_not_targets_only :
    PrometheusConfig.JSON exampleDoc ≠ some ("[\n \"play.min.io:9000\"\n]") := by
  decide

/-- Claim C3 amended: JSON mode serializes the document's first scrape
config - the whole first scrape target object, with jobName,
bearerToken, metricsPath, scheme and staticConfigs - as indented JSON,
not the full document and not only the static-target list; the string
from the claim is instead the JSON rendering that StatConfig.JSON gives
the static-target list. -/
theorem json_first_scrape_config :
    PrometheusConfig.JSON exampleDoc
        = some ("\x7b\n \"jobName\": \"minio-job\",\n \"bearerToken\": \"T\",\n \"metricsPath\": \"/minio/v2/metrics/cluster\",\n \"scheme\": \"http\",\n \"staticConfigs\": [\n  \x7b\n   \"targets\": [\n    \"play.min.io:9000\"\n   ]\n  \x7d\n ]\n\x7d")
    ∧ StatConfig.JSON (StatConfig.mk [("play.min.io:9000")])
        = ("[\n \"play.min.io:9000\"\n]") :=
  ⟨rfl, rfl⟩

/-! ## Claim C4 -/

/-- Claim C4 fails on the code: when credential signing fails, the
command returns the error, but mainAdminPrometheusGenerate (src lines
216-218) checks the error and returns nil in both branches, so the
process exits with status 0 and prints no document - not with a non-zero
status as claimed.  This theorem evaluates the code at such an input. -/
theorem errReturn_swallowed_exit_zero :
    (generatePrometheusConfig initialTemplates c4Inputs).2
        = GenOutcome.errReturn ("empty signing secret")
    ∧ (mainAdminPrometheusGenerate 1 initialTemplates c4Inputs).2 = RunResult.mk 0 [] :=
  ⟨rfl, rfl⟩

/-! ## Claim C8 -/

/-- Claim C8: Structured (YAML) rendering recovers locally from a
serialization failure, returning a descriptive error string instead of a
document (the program does not abort); and on the spec's example
document the output contains the job name, bearer token, metrics path,
scheme and target host verbatim, whether or not colorization is
enabled. -/
theorem structured_recovers_and_verbatim :
    (∀ b e, prometheusStringOf b (Except.error e) = "error creating config string: " ++ e)
    ∧ (∀ b : Bool,
        List.IsInfix (("minio-job").data) ((PrometheusConfig.String b exampleDoc).data)
        ∧ List.IsInfix (("T").data) ((PrometheusConfig.String b exampleDoc).data)
        ∧ List.IsInfix (("/minio/v2/metrics/cluster").data)
            ((PrometheusConfig.String b exampleDoc).data)
        ∧ List.IsInfix (("http").data) ((PrometheusConfig.String b exampleDoc).data)
        ∧ List.IsInfix (("play.min.io:9000").data)
            ((PrometheusConfig.String b exampleDoc).data)) := by
  refine ⟨fun b e => rfl, fun b => ?_⟩
  cases b
  · exact ⟨by decide, by decide, by decide, by decide, by decide⟩
  · exact ⟨by decide, by decide, by decide, by decide, by decide⟩

/-! ## Claim C10 -/

/-- Claim C10: the JSON renderer is partial at the public interface - on
a document with no scrape configs it dereferences the first element
without a guard and fails (none models the index out-of-range fault),
and it fails exactly there - whereas the Structured renderer is total:
it returns a (nonempty) string on every document, including that one. -/
theorem json_unguarded_index_vs_structured :
    PrometheusConfig.JSON (PrometheusConfig.mk []) = none
    ∧ (∀ c : PrometheusConfig, (PrometheusConfig.JSON c).isNone ↔ c.ScrapeConfigs = [])
    ∧ (∀ (b : Bool) (c : PrometheusConfig), 0 < (PrometheusConfig.String b c).length) := by
  refine ⟨rfl, ?_, ?_⟩
  · intro c
    obtain ⟨scs⟩ := c
    cases scs with
    | nil => simp [PrometheusConfig.JSON]
    | cons a l => simp [PrometheusConfig.JSON]
  · intro b c
    have hy : 0 < (yamlMarshalPrometheus c).length := by
      unfold yamlMarshalPrometheus
      by_cases he : c.ScrapeConfigs.isEmpty
      · rw [if_pos he]; decide
      · rw [if_neg he]
        have hsplit : ("scrape_configs:\n"
            ++ String.join (c.ScrapeConfigs.map yamlScrapeConfigBlock)).length
            = ("scrape_configs:\n").length
              + (String.join (c.ScrapeConfigs.map yamlScrapeConfigBlock)).length :=
          String.length_append _ _
        have hlit : ("scrape_configs:\n").length = 16 := rfl
        omega
    cases b
    · exact hy
    · show 0 < ("\x1b[32m" ++ (yamlMarshalPrometheus c ++ "\x1b[0m")).length
      rw [String.length_append, String.length_append]
      exact Nat.add_pos_right _ (Nat.add_pos_left hy _)

